import Mathlib

/-!
Verification of the `ZodWorker` task-dispatch layer (a typed wrapper over the
graphile-worker engine).  The development shallowly embeds the worker's data
model and operations: runtime JS values are modelled by `Value`, zod schemas by
parsing functions, the SQL `add_job` / `remove_job` calls by explicit argument
records, and handler invocation / logging by event traces.
-/

namespace ZodWorker

/-- Model of a runtime JS value as it flows through the worker: JSON values
plus `Date` objects (a `Date` is its epoch-milliseconds timestamp). -/
inductive Value where
  | null : Value
  | bool (b : Bool) : Value
  | num (n : Int) : Value
  | str (s : String) : Value
  | date (t : Int) : Value
  | obj (fields : List (String × Value)) : Value
  | arr (xs : List Value) : Value
deriving Repr

mutual

def Value.beq : Value → Value → Bool
  | .null, .null => true
  | .bool a, .bool b => a == b
  | .num a, .num b => a == b
  | .str a, .str b => a == b
  | .date a, .date b => a == b
  | .obj a, .obj b => Value.beqFields a b
  | .arr a, .arr b => Value.beqList a b
  | _, _ => false

def Value.beqFields : List (String × Value) → List (String × Value) → Bool
  | [], [] => true
  | (k, v) :: rest, (k', v') :: rest' =>
      k == k' && Value.beq v v' && Value.beqFields rest rest'
  | _, _ => false

def Value.beqList : List Value → List Value → Bool
  | [], [] => true
  | v :: rest, v' :: rest' => Value.beq v v' && Value.beqList rest rest'
  | _, _ => false

end

mutual

theorem Value.beq_eq : ∀ a b : Value, Value.beq a b = true → a = b
  | .null, .null, _ => rfl
  | .bool a, .bool b, h => by
      simp only [Value.beq, beq_iff_eq] at h; simp [h]
  | .num a, .num b, h => by
      simp only [Value.beq, beq_iff_eq] at h; simp [h]
  | .str a, .str b, h => by
      simp only [Value.beq, beq_iff_eq] at h; simp [h]
  | .date a, .date b, h => by
      simp only [Value.beq, beq_iff_eq] at h; simp [h]
  | .obj a, .obj b, h => by
      simp only [Value.beq] at h
      have := Value.beqFields_eq a b h
      simp [this]
  | .arr a, .arr b, h => by
      simp only [Value.beq] at h
      have := Value.beqList_eq a b h
      simp [this]

theorem Value.beqFields_eq :
    ∀ a b : List (String × Value), Value.beqFields a b = true → a = b
  | [], [], _ => rfl
  | (k, v) :: rest, (k', v') :: rest', h => by
      simp only [Value.beqFields, Bool.and_eq_true, beq_iff_eq] at h
      obtain ⟨⟨hk, hv⟩, hr⟩ := h
      have h1 := Value.beq_eq v v' hv
      have h2 := Value.beqFields_eq rest rest' hr
      simp [hk, h1, h2]

theorem Value.beqList_eq :
    ∀ a b : List Value, Value.beqList a b = true → a = b
  | [], [], _ => rfl
  | v :: rest, v' :: rest', h => by
      simp only [Value.beqList, Bool.and_eq_true] at h
      obtain ⟨hv, hr⟩ := h
      have h1 := Value.beq_eq v v' hv
      have h2 := Value.beqList_eq rest rest' hr
      simp [h1, h2]

end

mutual

theorem Value.beq_refl : ∀ a : Value, Value.beq a a = true
  | .null => rfl
  | .bool a => by simp [Value.beq]
  | .num a => by simp [Value.beq]
  | .str a => by simp [Value.beq]
  | .date a => by simp [Value.beq]
  | .obj a => by simp only [Value.beq]; exact Value.beqFields_refl a
  | .arr a => by simp only [Value.beq]; exact Value.beqList_refl a

theorem Value.beqFields_refl : ∀ a : List (String × Value), Value.beqFields a a = true
  | [] => rfl
  | (k, v) :: rest => by
      simp only [Value.beqFields, Bool.and_eq_true]
      exact ⟨⟨by simp, Value.beq_refl v⟩, Value.beqFields_refl rest⟩

theorem Value.beqList_refl : ∀ a : List Value, Value.beqList a a = true
  | [] => rfl
  | v :: rest => by
      simp only [Value.beqList, Bool.and_eq_true]
      exact ⟨Value.beq_refl v, Value.beqList_refl rest⟩

end

instance : DecidableEq Value := fun a b =>
  if h : Value.beq a b = true then
    .isTrue (Value.beq_eq a b h)
  else
    .isFalse (fun he => h (he ▸ Value.beq_refl a))

/-- First-match lookup in a string-keyed association list (JS object access). -/
def lookupStr {α : Type} (k : String) : List (String × α) → Option α
  | [] => none
  | (k', v) :: rest => if k' = k then some v else lookupStr k rest

/-- Field access on a JS object value; `none` models `undefined`. -/
def Value.lookupField : Value → String → Option Value
  | .obj fields, k => lookupStr k fields
  | _, _ => none

/-! ### Calendar arithmetic for `Date` coercion and ISO formatting -/

def isLeapYear (y : Int) : Bool :=
  y % 4 == 0 && (y % 100 != 0 || y % 400 == 0)

def daysInMonth (y m : Int) : Int :=
  if m = 1 ∨ m = 3 ∨ m = 5 ∨ m = 7 ∨ m = 8 ∨ m = 10 ∨ m = 12 then 31
  else if m = 4 ∨ m = 6 ∨ m = 9 ∨ m = 11 then 30
  else if isLeapYear y then 29
  else 28

/-- Days since 1970-01-01 of the civil date (y, m, d). -/
def daysFromCivil (y m d : Int) : Int :=
  let y' := if m ≤ 2 then y - 1 else y
  let era := (if 0 ≤ y' then y' else y' - 399) / 400
  let yoe := y' - era * 400
  let doy := (153 * (if 2 < m then m - 3 else m + 9) + 2) / 5 + d - 1
  let doe := yoe * 365 + yoe / 4 - yoe / 100 + doy
  era * 146097 + doe - 719468

/-- Civil date (y, m, d) of a day count since 1970-01-01. -/
def civilFromDays (z : Int) : Int × Int × Int :=
  let z' := z + 719468
  let era := (if 0 ≤ z' then z' else z' - 146096) / 146097
  let doe := z' - era * 146097
  let yoe := (doe - doe / 1460 + doe / 36524 - doe / 146096) / 365
  let y := yoe + era * 400
  let doy := doe - (365 * yoe + yoe / 4 - yoe / 100)
  let mp := (5 * doy + 2) / 153
  let d := doy - (153 * mp + 2) / 5 + 1
  let m := if mp < 10 then mp + 3 else mp - 9
  (if m ≤ 2 then y + 1 else y, m, d)

def padTwo (n : Int) : String :=
  if n < 10 then "0" ++ toString n else toString n

def padThree (n : Int) : String :=
  if n < 10 then "00" ++ toString n
  else if n < 100 then "0" ++ toString n
  else toString n

def padFour (n : Int) : String :=
  if n < 10 then "000" ++ toString n
  else if n < 100 then "00" ++ toString n
  else if n < 1000 then "0" ++ toString n
  else toString n

/-- `Date.prototype.toISOString` for an epoch-milliseconds timestamp. -/
def formatISO (t : Int) : String :=
  let days := Int.fdiv t 86400000
  let msOfDay := t - days * 86400000
  let hh := msOfDay / 3600000
  let mi := msOfDay % 3600000 / 60000
  let ss := msOfDay % 60000 / 1000
  let ms := msOfDay % 1000
  let c := civilFromDays days
  padFour c.1 ++ "-" ++ padTwo c.2.1 ++ "-" ++ padTwo c.2.2 ++ "T" ++
    padTwo hh ++ ":" ++ padTwo mi ++ ":" ++ padTwo ss ++ "." ++ padThree ms ++ "Z"

def digitVal (c : Char) : Option Int :=
  if c.isDigit then some (Int.ofNat (c.toNat - 48)) else none

def digitsVal : List Char → Option Int
  | [] => some 0
  | cs =>
    cs.foldl (fun acc c =>
      match acc, digitVal c with
      | some a, some d => some (a * 10 + d)
      | _, _ => none) (some 0)

/-- Parse a UTC ISO-8601 date string, modelling the date-string forms accepted
by the JS `Date` constructor as used by `z.coerce.date()`: `YYYY-MM-DD`,
`YYYY-MM-DDTHH:MM:SSZ` and `YYYY-MM-DDTHH:MM:SS.mmmZ`.  Returns
epoch milliseconds, or `none` for an invalid date. -/
def parseISO (s : String) : Option Int :=
  let cs := s.data
  let core := fun (y mo d : Int) (timeMs : Int) =>
    if 1 ≤ mo ∧ mo ≤ 12 ∧ 1 ≤ d ∧ d ≤ daysInMonth y mo then
      some (daysFromCivil y mo d * 86400000 + timeMs)
    else none
  match cs with
  | [y1, y2, y3, y4, '-', m1, m2, '-', d1, d2] =>
    match digitsVal [y1, y2, y3, y4], digitsVal [m1, m2], digitsVal [d1, d2] with
    | some y, some mo, some d => core y mo d 0
    | _, _, _ => none
  | [y1, y2, y3, y4, '-', m1, m2, '-', d1, d2, 'T',
     h1, h2, ':', n1, n2, ':', s1, s2, 'Z'] =>
    match digitsVal [y1, y2, y3, y4], digitsVal [m1, m2], digitsVal [d1, d2],
          digitsVal [h1, h2], digitsVal [n1, n2], digitsVal [s1, s2] with
    | some y, some mo, some d, some hh, some mi, some ss =>
      if hh ≤ 23 ∧ mi ≤ 59 ∧ ss ≤ 59 then
        core y mo d (hh * 3600000 + mi * 60000 + ss * 1000)
      else none
    | _, _, _, _, _, _ => none
  | [y1, y2, y3, y4, '-', m1, m2, '-', d1, d2, 'T',
     h1, h2, ':', n1, n2, ':', s1, s2, '.', f1, f2, f3, 'Z'] =>
    match digitsVal [y1, y2, y3, y4], digitsVal [m1, m2], digitsVal [d1, d2],
          digitsVal [h1, h2], digitsVal [n1, n2], digitsVal [s1, s2],
          digitsVal [f1, f2, f3] with
    | some y, some mo, some d, some hh, some mi, some ss, some ms =>
      if hh ≤ 23 ∧ mi ≤ 59 ∧ ss ≤ 59 then
        core y mo d (hh * 3600000 + mi * 60000 + ss * 1000 + ms)
      else none
    | _, _, _, _, _, _, _ => none
  | _ => none

/-- `z.coerce.date()` on a runtime value: `new Date(x)` followed by the
invalid-date check.  Dates pass through, numbers and booleans and `null`
coerce via their numeric value, strings parse as ISO dates, objects and
arrays give an invalid date. -/
def coerceDate : Value → Option Int
  | .date t => some t
  | .num n => some n
  | .bool b => some (if b then 1 else 0)
  | .null => some 0
  | .str s => parseISO s
  | .obj _ => none
  | .arr _ => none

mutual

/-- `JSON.stringify` over the runtime value model (Dates serialise to their
ISO string). -/
def jsonStringify : Value → String
  | .null => "null"
  | .bool b => if b then "true" else "false"
  | .num n => toString n
  | .str s => "\"" ++ s ++ "\""
  | .date t => "\"" ++ formatISO t ++ "\""
  | .obj fields => "\x7b" ++ jsonStringifyFields fields ++ "\x7d"
  | .arr xs => "[" ++ jsonStringifyArr xs ++ "]"

def jsonStringifyFields : List (String × Value) → String
  | [] => ""
  | [(k, v)] => "\"" ++ k ++ "\":" ++ jsonStringify v
  | (k, v) :: rest =>
      "\"" ++ k ++ "\":" ++ jsonStringify v ++ "," ++ jsonStringifyFields rest

def jsonStringifyArr : List Value → String
  | [] => ""
  | [v] => jsonStringify v
  | v :: rest => jsonStringify v ++ "," ++ jsonStringifyArr rest

end

/-! ### Zod field parsers

Each parser takes an `Option Value` where `none` models a missing object key
(JS `undefined`), mirroring how zod sees absent fields. -/

/-- `String(x)` as applied by `z.coerce.string()`. -/
def coerceString : Value → String
  | .null => "null"
  | .bool b => if b then "true" else "false"
  | .num n => toString n
  | .str s => s
  | .date t => formatISO t
  | .obj _ => "[object Object]"
  | .arr xs => String.intercalate "," (xs.map fun v =>
      match v with
      | .null => ""
      | .str s => s
      | .num n => toString n
      | .bool b => if b then "true" else "false"
      | _ => "")

/-- `z.coerce.string()`: coercion never fails; a missing key coerces to the
string form of `undefined`. -/
def zCoerceString : Option Value → Option String
  | none => some "undefined"
  | some v => some (coerceString v)

/-- `z.string().nullable()`. -/
def zStringNullable : Option Value → Option (Option String)
  | some (.str s) => some (some s)
  | some .null => some none
  | _ => none

/-- `z.string()`. -/
def zString : Option Value → Option String
  | some (.str s) => some s
  | _ => none

/-- `z.number()`. -/
def zNumber : Option Value → Option Int
  | some (.num n) => some n
  | _ => none

/-- `z.coerce.date()`: a missing key gives an invalid date. -/
def zCoerceDate : Option Value → Option Int
  | none => none
  | some v => coerceDate v

/-- `z.coerce.date().nullable()`. -/
def zCoerceDateNullable : Option Value → Option (Option Int)
  | none => none
  | some .null => some none
  | some v => (coerceDate v).map some

/-- `z.boolean()`. -/
def zBoolean : Option Value → Option Bool
  | some (.bool b) => some b
  | _ => none

def recordBoolFields : List (String × Value) → Option (List (String × Bool))
  | [] => some []
  | (k, .bool b) :: rest => (recordBoolFields rest).map ((k, b) :: ·)
  | _ => none

/-- `z.record(z.boolean()).nullable()`. -/
def zRecordBoolNullable : Option Value → Option (Option (List (String × Bool)))
  | some (.obj fields) => (recordBoolFields fields).map some
  | some .null => some none
  | _ => none

/-- `z.unknown()`: always succeeds; `none` models a key that was absent. -/
def zUnknown : Option Value → Option (Option Value)
  | ov => some ov

/-- The normalized job-record shape (`GraphileJobSchema` output). -/
structure GraphileJob where
  id : String
  queue_name : Option String
  task_identifier : String
  payload : Option Value
  priority : Int
  run_at : Int
  attempts : Int
  max_attempts : Int
  last_error : Option String
  created_at : Int
  updated_at : Int
  key : Option String
  revision : Int
  locked_at : Option Int
  locked_by : Option String
  flags : Option (List (String × Bool))
deriving Repr, DecidableEq

/-- `GraphileJobSchema.safeParse` on one row. -/
def parseGraphileJob (v : Value) : Option GraphileJob :=
  match v with
  | .obj fields =>
    match zCoerceString (lookupStr "id" fields),
          zStringNullable (lookupStr "queue_name" fields),
          zString (lookupStr "task_identifier" fields),
          zUnknown (lookupStr "payload" fields),
          zNumber (lookupStr "priority" fields),
          zCoerceDate (lookupStr "run_at" fields),
          zNumber (lookupStr "attempts" fields),
          zNumber (lookupStr "max_attempts" fields) with
    | some id, some qn, some ti, some pl, some pr, some ra, some at_, some ma =>
      match zStringNullable (lookupStr "last_error" fields),
            zCoerceDate (lookupStr "created_at" fields),
            zCoerceDate (lookupStr "updated_at" fields),
            zStringNullable (lookupStr "key" fields),
            zNumber (lookupStr "revision" fields),
            zCoerceDateNullable (lookupStr "locked_at" fields),
            zStringNullable (lookupStr "locked_by" fields),
            zRecordBoolNullable (lookupStr "flags" fields) with
      | some le, some ca, some ua, some k, some rev, some la, some lb, some fl =>
        some ⟨id, qn, ti, pl, pr, ra, at_, ma, le, ca, ua, k, rev, la, lb, fl⟩
      | _, _, _, _, _, _, _, _ => none
    | _, _, _, _, _, _, _, _ => none
  | _ => none

def typeNameOf : Value → String
  | .null => "null"
  | .bool _ => "boolean"
  | .num _ => "number"
  | .str _ => "string"
  | .date _ => "date"
  | .obj _ => "object"
  | .arr _ => "array"

def parseJobRows : List Value → Nat → Except String (List GraphileJob)
  | [], _ => .ok []
  | v :: rest, i =>
    match parseGraphileJob v with
    | none => .error ("invalid job row at index " ++ toString i)
    | some j =>
      match parseJobRows rest (i + 1) with
      | .ok js => .ok (j :: js)
      | .error e => .error e

/-- `AddJobResultsSchema.safeParse`: the raw result of an `add_job` /
`remove_job` query must be an array of job rows.  The error string models
`JSON.stringify` of the zod error. -/
def parseAddJobResults (v : Value) : Except String (List GraphileJob) :=
  match v with
  | .arr xs => parseJobRows xs 0
  | _ => .error ("Expected array, received " ++ typeNameOf v)

/-- `RawCronPayloadSchema.safeParse`: parse a raw cron firing payload against
the envelope shape with a `_cron` object holding a coercible `ts` and a
boolean `backfilled`.  On success the parsed value is the object rebuilt with
the schema's keys (zod strips unknown keys); the error string models
`JSON.stringify` of the zod error. -/
def rawCronPayloadSafeParse (v : Value) : Except String Value :=
  match v with
  | .obj fields =>
    match lookupStr "_cron" fields with
    | some (.obj cronFields) =>
      match zCoerceDate (lookupStr "ts" cronFields),
            zBoolean (lookupStr "backfilled" cronFields) with
      | some t, some b =>
        .ok (.obj [("_cron", .obj [("ts", .date t), ("backfilled", .bool b)])])
      | none, _ => .error "Invalid date at _cron.ts"
      | some _, none => .error "Expected boolean at _cron.backfilled"
    | some v' => .error ("Expected object at _cron, received " ++ typeNameOf v')
    | none => .error "Required object missing at _cron"
  | _ => .error ("Expected object, received " ++ typeNameOf v)

/-! ### Worker data model -/

/-- A task definition's `queueName` field: a fixed string or a function from
the payload to a string. -/
inductive QueueNameConfig where
  | fixed (s : String) : QueueNameConfig
  | fromPayload (f : Value → String) : QueueNameConfig

/-- One entry of `ZodTasks`: the dispatch configuration plus the handler.  A
handler is modelled as a function returning `Except` (its thrown error, if
any). -/
structure ZodTask where
  queueName : Option QueueNameConfig := none
  priority : Option Int := none
  maxAttempts : Option Int := none
  jobKeyMode : Option String := none
  flags : Option (List String) := none
  handler : Value → GraphileJob → Except String Unit

/-- One entry of `ZodRecurringTasks`. -/
structure ZodRecurringTask where
  pattern : String
  options : Option String := none
  handler : Value → GraphileJob → Except String Unit

/-- `TaskSpec`-shaped caller options for `enqueue`, plus the optional
transactional context (`tx`, a context identifier). -/
structure EnqueueOptions where
  queueName : Option String := none
  runAt : Option Int := none
  maxAttempts : Option Int := none
  jobKey : Option String := none
  priority : Option Int := none
  flags : Option (List String) := none
  jobKeyMode : Option String := none
  tx : Option Nat := none

structure DequeueOptions where
  tx : Option Nat := none

/-- The effective job specification built inside `enqueue` by spreading the
tx-stripped options and then the task definition over them. -/
structure MergedSpec where
  queueName : Option QueueNameConfig := none
  runAt : Option Int := none
  maxAttempts : Option Int := none
  jobKey : Option String := none
  priority : Option Int := none
  flags : Option (List String) := none
  jobKeyMode : Option String := none

/-- `spec = \x7b...optionsWithoutTx, ...task\x7d`: every field the task
definition sets overrides the caller option; `runAt` and `jobKey` only exist
on the options side. -/
def mergeSpec (options : EnqueueOptions) (task : ZodTask) : MergedSpec :=
  { queueName := task.queueName <|> (options.queueName.map QueueNameConfig.fixed)
    runAt := options.runAt
    maxAttempts := task.maxAttempts <|> options.maxAttempts
    jobKey := options.jobKey
    priority := task.priority <|> options.priority
    flags := task.flags <|> options.flags
    jobKeyMode := task.jobKeyMode <|> options.jobKeyMode }

/-- The conditional after the merge: if the task's `queueName` is a function,
replace `spec.queueName` with its value on the payload. -/
def applyQueueNameFn (task : ZodTask) (payload : Value) (spec : MergedSpec) :
    MergedSpec :=
  match task.queueName with
  | some (.fromPayload f) => { spec with queueName := some (.fixed (f payload)) }
  | _ => spec

/-- The queue-name string held by the resolved spec (after
`applyQueueNameFn`, a function-valued `queueName` can no longer occur on the
path from `enqueue`). -/
def MergedSpec.queueNameStr (spec : MergedSpec) : Option String :=
  match spec.queueName with
  | some (.fixed s) => some s
  | _ => none

/-! ### The SQL `add_job` call -/

/-- A value bound to one placeholder of the raw SQL query. -/
inductive SqlArg where
  | null : SqlArg
  | str (s : String) : SqlArg
  | int (n : Int) : SqlArg
  | timestamp (t : Int) : SqlArg
  | strArr (xs : List String) : SqlArg
deriving Repr, DecidableEq

/-- JS `x || null` on an optional string (the empty string is falsy). -/
def sqlStrOrNull : Option String → SqlArg
  | none => .null
  | some s => if s = "" then .null else .str s

/-- JS `x || null` on an optional number (`0` is falsy). -/
def sqlIntOrNull : Option Int → SqlArg
  | none => .null
  | some n => if n = 0 then .null else .int n

/-- JS `x || null` on an optional `Date` (a `Date` object is always truthy). -/
def sqlTimestampOrNull : Option Int → SqlArg
  | none => .null
  | some t => .timestamp t

/-- JS `x || null` on an optional array (an array is always truthy). -/
def sqlFlagsOrNull : Option (List String) → SqlArg
  | none => .null
  | some xs => .strArr xs

/-- The positional argument list passed to `$queryRawUnsafe` after the SQL
text in `ZodWorker.#addJob`, in source order: identifier, stringified
payload, `spec.queueName || null`, `spec.runAt || null`,
`spec.maxAttempts || null`, `spec.jobKey || null`, `spec.priority || null`,
`spec.jobKeyMode || null`, `spec.flags || null`. -/
def addJobArgs (identifier : String) (payload : Value) (spec : MergedSpec) :
    List SqlArg :=
  [ .str identifier,
    .str (jsonStringify payload),
    sqlStrOrNull spec.queueNameStr,
    sqlTimestampOrNull spec.runAt,
    sqlIntOrNull spec.maxAttempts,
    sqlStrOrNull spec.jobKey,
    sqlIntOrNull spec.priority,
    sqlStrOrNull spec.jobKeyMode,
    sqlFlagsOrNull spec.flags ]

/-- The engine-side parameters of `graphile_worker.add_job`, each holding the
placeholder value the SQL text binds to it: `identifier => $1`,
`payload => $2`, `queue_name => $3`, `run_at => $4`, `max_attempts => $5`,
`job_key => $6`, `priority => $7`, `flags => $8`, `job_key_mode => $9`. -/
structure AddJobCall where
  identifier : SqlArg
  payload : SqlArg
  queue_name : SqlArg
  run_at : SqlArg
  max_attempts : SqlArg
  job_key : SqlArg
  priority : SqlArg
  flags : SqlArg
  job_key_mode : SqlArg
deriving Repr, DecidableEq

/-- Bind the positional argument list to the named engine parameters exactly
as the SQL text does. -/
def addJobCallOfArgs (args : List SqlArg) : AddJobCall :=
  { identifier := args.getD 0 .null
    payload := args.getD 1 .null
    queue_name := args.getD 2 .null
    run_at := args.getD 3 .null
    max_attempts := args.getD 4 .null
    job_key := args.getD 5 .null
    priority := args.getD 6 .null
    flags := args.getD 7 .null
    job_key_mode := args.getD 8 .null }

def mkAddJobCall (identifier : String) (payload : Value) (spec : MergedSpec) :
    AddJobCall :=
  addJobCallOfArgs (addJobArgs identifier payload spec)

/-- An operation issued through the transactional context (identified by a
context id). -/
inductive DbCall where
  | addJobOp (ctx : Nat) (call : AddJobCall) : DbCall
  | removeJobOp (ctx : Nat) (jobKey : String) : DbCall
deriving Repr, DecidableEq

/-- The data store as an oracle: the raw result (or raised exception, as its
string rendering) of each issued operation. -/
def Db : Type := DbCall → Except String Value

/-! ### Errors, events, worker -/

inductive WorkerError where
  | notInitialized : WorkerError
  | initFailed : WorkerError
  | taskUndefined : WorkerError
  | addJobParse (detail : String) : WorkerError
  | removeJobError (message : String) : WorkerError
  | dbRaised (message : String) : WorkerError
  | unknownMessageType (name : String) : WorkerError
  | payloadValidation (name : String) : WorkerError
  | noTaskForMessage (name : String) : WorkerError
  | noRecurringTask (name : String) : WorkerError
  | recurringParse (detail : String) : WorkerError
  | handlerError (message : String) : WorkerError
deriving Repr, DecidableEq

inductive LogLevel where
  | debug : LogLevel
  | error : LogLevel
deriving Repr, DecidableEq

/-- Observable events of a dispatch: log lines, handler invocations, and
engine shutdown requests. -/
inductive Event where
  | log (lvl : LogLevel) (msg : String) : Event
  | invokeNormal (key : String) (payload : Value) : Event
  | invokeRecurring (key : String) (payload : Value) : Event
  | engineStop (id : Nat) : Event
deriving Repr, DecidableEq

/-- A live engine handle (`GraphileRunner`). -/
structure Runner where
  id : Nat
deriving Repr, DecidableEq

/-- A closure stored in the dispatch table handed to the engine: it forwards
a firing to `#handleMessage` or `#handleRecurringTask` for its key. -/
inductive TaskClosure where
  | handleMessageFor (key : String) : TaskClosure
  | handleRecurringFor (key : String) : TaskClosure
deriving Repr, DecidableEq

/-- A cron item handed to the engine: pattern, identifier (also used as the
task name) and pass-through options. -/
structure CronItem where
  pattern : String
  identifier : String
  task : String
  options : Option String := none
deriving Repr, DecidableEq

/-- The worker's construction-time configuration.  The message catalog maps a
task identifier to its zod validator (a parse function); `engineRun` is the
external engine's start operation; `prismaCtx` identifies the default shared
transactional context. -/
structure Worker where
  schema : List (String × (Value → Option Value))
  tasks : List (String × ZodTask)
  recurringTasks : List (String × ZodRecurringTask)
  engineRun : List (String × TaskClosure) → List CronItem → Option Runner
  prismaCtx : Nat

/-! ### Gateway operations -/

/-- `ZodWorker.#addJob`: issue the `add_job` operation against the given
transactional context, parse the tabular result as a list of job records, and
return the first record (`none` models the `undefined` a caller receives when
the result row list is empty).  An exception raised by the query propagates
unmodified; a result-shape failure throws a structured zod-parse error. -/
def addJob (db : Db) (ctx : Nat) (identifier : String) (payload : Value)
    (spec : MergedSpec) : List DbCall × Except WorkerError (Option GraphileJob) :=
  let call := DbCall.addJobOp ctx (mkAddJobCall identifier payload spec)
  ([call],
    match db call with
    | .error e => .error (.dbRaised e)
    | .ok v =>
      match parseAddJobResults v with
      | .error d => .error (.addJobParse
          ("Failed to add job to queue, zod parsing error: " ++ d))
      | .ok rows => .ok (rows.head?))

/-- `ZodWorker.#removeJob`: issue the `remove_job` operation, parse its
result as a list of job records, and return the first record.  The whole body
is wrapped in a try/catch whose handler rethrows every failure (the raised
query exception, or the internally thrown zod-parse error, rendered as
`Error: message`) wrapped in a remove-job error whose message embeds the
original cause (the source template appends a stray closing brace). -/
def removeJob (db : Db) (ctx : Nat) (jobKey : String) :
    List DbCall × Except WorkerError (Option GraphileJob) :=
  let call := DbCall.removeJobOp ctx jobKey
  let inner : Except String (Option GraphileJob) :=
    match db call with
    | .error e => .error e
    | .ok v =>
      match parseAddJobResults v with
      | .error d => .error
          ("Error: Failed to remove job from queue, zod parsing error: " ++ d)
      | .ok rows => .ok (rows.head?)
  ([call],
    match inner with
    | .ok j => .ok j
    | .error e => .error (.removeJobError
        ("Failed to remove job from queue, " ++ e ++ "\x7d")))

/-- `ZodWorker.enqueue`: requires a live engine handle, merges the caller
options (minus `tx`) with the task definition, resolves a function-valued
queue name against the payload, and issues the add-job operation through the
caller-supplied or default transactional context.  The first component is
the list of data-store operations issued. -/
def enqueue (w : Worker) (db : Db) (runner : Option Runner)
    (identifier : String) (payload : Value) (options : EnqueueOptions) :
    List DbCall × Except WorkerError (Option GraphileJob) :=
  match runner with
  | none => ([], .error .notInitialized)
  | some _ =>
    match lookupStr identifier w.tasks with
    | none => ([], .error .taskUndefined)
    | some task =>
      let spec := applyQueueNameFn task payload (mergeSpec options task)
      addJob db (options.tx.getD w.prismaCtx) identifier payload spec

/-- `ZodWorker.dequeue`: requires a live engine handle and delegates to
`#removeJob` through the caller-supplied or default transactional context. -/
def dequeue (w : Worker) (db : Db) (runner : Option Runner) (jobKey : String)
    (options : DequeueOptions) :
    List DbCall × Except WorkerError (Option GraphileJob) :=
  match runner with
  | none => ([], .error .notInitialized)
  | some _ => removeJob db (options.tx.getD w.prismaCtx) jobKey

/-! ### Dispatch table, cron items, lifecycle -/

/-- JS object key assignment: overwrite the value at an existing key in
place, otherwise append the new key. -/
def objInsert {α : Type} : List (String × α) → String → α → List (String × α)
  | [], k, v => [(k, v)]
  | (k', v') :: rest, k, v =>
    if k' = k then (k, v) :: rest else (k', v') :: objInsert rest k v

/-- `ZodWorker.#createTaskListFromTasks`: one closure per task-registry key,
then one per recurring-task key, assigned into the same name-keyed table (a
later assignment overwrites an earlier one). -/
def createTaskListFromTasks (tasks : List (String × ZodTask))
    (recurringTasks : List (String × ZodRecurringTask)) :
    List (String × TaskClosure) :=
  let taskList := tasks.foldl
    (fun acc p => objInsert acc p.1 (.handleMessageFor p.1)) []
  recurringTasks.foldl
    (fun acc p => objInsert acc p.1 (.handleRecurringFor p.1)) taskList

/-- `ZodWorker.#createCronItemsFromRecurringTasks`: one cron item per
recurring task, the key serving as both identifier and task name. -/
def createCronItemsFromRecurringTasks
    (recurringTasks : List (String × ZodRecurringTask)) : List CronItem :=
  recurringTasks.map (fun p =>
    { pattern := p.2.pattern, identifier := p.1, task := p.1,
      options := p.2.options })

/-- `ZodWorker.initialize`: if an engine handle already exists, return `true`
immediately.  Otherwise build the cron items and the dispatch table, start
the engine with them, and fail if no handle comes back.  The result carries
the new handle slot, the returned value (or thrown error), and how many times
the engine start operation was performed. -/
def startWorker (w : Worker) (runner : Option Runner) :
    Option Runner × Except WorkerError Bool × Nat :=
  match runner with
  | some r => (some r, .ok true, 0)
  | none =>
    match w.engineRun
        (createTaskListFromTasks w.tasks w.recurringTasks)
        (createCronItemsFromRecurringTasks w.recurringTasks) with
    | some r => (some r, .ok true, 1)
    | none => (none, .error .initFailed, 1)

/-- `ZodWorker.stop`: `await this.#runner?.stop()` — requests engine shutdown
when a handle exists, and leaves the handle slot as it was. -/
def stop (runner : Option Runner) : List Event × Option Runner :=
  match runner with
  | none => ([], none)
  | some r => ([.engineStop r.id], some r)

/-! ### Dispatch handlers -/

/-- `ZodWorker.#handleMessage`: look up the identifier's validator in the
message catalog, parse the raw payload through it (a failure propagates as a
validation error), log, look up the task definition, and invoke its handler
with the parsed payload and the job record.  Handler errors propagate
unmodified. -/
def handleMessage (w : Worker) (typeName : String) (rawPayload : Value)
    (job : GraphileJob) : List Event × Except WorkerError Unit :=
  match lookupStr typeName w.schema with
  | none => ([], .error (.unknownMessageType typeName))
  | some messageSchema =>
    match messageSchema rawPayload with
    | none => ([], .error (.payloadValidation typeName))
    | some payload =>
      let received := Event.log .debug "Received worker task, calling handler"
      match lookupStr typeName w.tasks with
      | none => ([received], .error (.noTaskForMessage typeName))
      | some task =>
        match task.handler payload job with
        | .ok _ => ([received, .invokeNormal typeName payload], .ok ())
        | .error e =>
            ([received, .invokeNormal typeName payload],
             .error (.handlerError e))

/-- `ZodWorker.#handleRecurringTask`: log the received firing, look up the
recurring task definition, parse the raw payload against the cron envelope
(a failure throws a structured parse error without invoking the handler),
then invoke the handler with the envelope's `_cron` object and the job
record; a handler failure is logged and rethrown. -/
def handleRecurringTask (recurringTasks : List (String × ZodRecurringTask))
    (typeName : String) (rawPayload : Value) (job : GraphileJob) :
    List Event × Except WorkerError Unit :=
  let received := Event.log .debug "Received recurring task, calling handler"
  match lookupStr typeName recurringTasks with
  | none => ([received], .error (.noRecurringTask typeName))
  | some recurringTask =>
    match rawCronPayloadSafeParse rawPayload with
    | .error d => ([received], .error (.recurringParse
        ("Failed to parse recurring task payload: " ++ d)))
    | .ok parsed =>
      let cron := (parsed.lookupField "_cron").getD .null
      match recurringTask.handler cron job with
      | .ok _ => ([received, .invokeRecurring typeName cron], .ok ())
      | .error e =>
          ([received, .invokeRecurring typeName cron,
            .log .error "Failed to handle recurring task"],
           .error (.handlerError e))

/-- Run one dispatch-table closure the way the engine does on a firing. -/
def runTaskClosure (w : Worker) (c : TaskClosure) (rawPayload : Value)
    (job : GraphileJob) : List Event × Except WorkerError Unit :=
  match c with
  | .handleMessageFor key => handleMessage w key rawPayload job
  | .handleRecurringFor key => handleRecurringTask w.recurringTasks key rawPayload job

/-- The handler-invocation events of a trace. -/
def invocationsOf (events : List Event) : List Event :=
  events.filter (fun e =>
    match e with
    | .invokeNormal _ _ => true
    | .invokeRecurring _ _ => true
    | _ => false)

/-! ### Concrete fixtures used by witnesses and counterexamples -/

def sampleJob : GraphileJob :=
  { id := "1", queue_name := none, task_identifier := "t", payload := none,
    priority := 0, run_at := 0, attempts := 0, max_attempts := 25,
    last_error := none, created_at := 0, updated_at := 0, key := none,
    revision := 0, locked_at := none, locked_by := none, flags := none }

/-- A data store whose every operation succeeds with an empty row array. -/
def dbArrEmpty : Db := fun _ => .ok (.arr [])

def noEnqueueOptions : EnqueueOptions := {}

def taskC1 : ZodTask :=
  { jobKeyMode := some "replace", flags := some ["a"],
    handler := fun _ _ => .ok () }

def workerC1 : Worker :=
  { schema := [], tasks := [("t", taskC1)], recurringTasks := [],
    engineRun := fun _ _ => some ⟨1⟩, prismaCtx := 0 }

/-! ### Claims -/

/-- C1: the `add_job` operation issued by `enqueue` does NOT bind every
resolved field to its corresponding engine parameter.  The SQL text binds
`flags => $8` and `job_key_mode => $9`, but the positional arguments pass
`spec.jobKeyMode` eighth and `spec.flags` ninth, so the engine's `flags`
parameter receives the job-key collision policy and `job_key_mode` receives
the task's flags.  Evaluating the code on a started worker enqueueing a task
whose flags are `["a"]` and whose collision policy is `"replace"` exhibits
the swap (all other parameters bind as the claim states). -/
theorem addJob_flags_jobKeyMode_swapped :
    (enqueue workerC1 dbArrEmpty (some ⟨1⟩) "t" .null noEnqueueOptions).1 =
      [DbCall.addJobOp 0
        { identifier := .str "t", payload := .str "null", queue_name := .null,
          run_at := .null, max_attempts := .null, job_key := .null,
          priority := .null, flags := .str "replace",
          job_key_mode := .strArr ["a"] }] ∧
    SqlArg.str "replace" ≠ SqlArg.strArr ["a"] :=
  ⟨rfl, by decide⟩

/-- C5: for every identifier, payload, job key and options, calling `enqueue`
or `dequeue` while no engine handle exists fails with the
uninitialized-worker error and issues no data-store operation. -/
theorem enqueue_dequeue_require_initialization (w : Worker) (db : Db)
    (identifier : String) (payload : Value) (options : EnqueueOptions)
    (jobKey : String) (doptions : DequeueOptions) :
    enqueue w db none identifier payload options = ([], .error .notInitialized) ∧
    dequeue w db none jobKey doptions = ([], .error .notInitialized) :=
  ⟨rfl, rfl⟩

/-- C4: `start()` is idempotent — when the engine yields a handle, the first
call builds and starts the engine (one engine start, success) and a second
call returns success immediately with zero further engine starts. -/
theorem startWorker_idempotent (w : Worker) (r : Runner)
    (h : w.engineRun (createTaskListFromTasks w.tasks w.recurringTasks)
          (createCronItemsFromRecurringTasks w.recurringTasks) = some r) :
    startWorker w none = (some r, .ok true, 1) ∧
    startWorker w (startWorker w none).1 = (some r, .ok true, 0) := by
  constructor
  · simp [startWorker, h]
  · simp [startWorker, h]

def workerC4 : Worker :=
  { schema := [], tasks := [], recurringTasks := [],
    engineRun := fun _ _ => some ⟨7⟩, prismaCtx := 0 }

theorem startWorker_idempotent_witness :
    startWorker workerC4 none = (some ⟨7⟩, .ok true, 1) ∧
    startWorker workerC4 (startWorker workerC4 none).1 = (some ⟨7⟩, .ok true, 0) :=
  startWorker_idempotent workerC4 ⟨7⟩ rfl

def workerC3 : Worker :=
  { schema := [], tasks := [("t", { handler := fun _ _ => .ok () })],
    recurringTasks := [], engineRun := fun _ _ => some ⟨3⟩, prismaCtx := 0 }

/-- C3 counterexample: `stop()` does not clear the engine handle.  After
`stop` on a live handle the handle slot still holds the runner, a subsequent
`start()` returns immediately performing zero engine starts, and `enqueue`
succeeds rather than failing with the uninitialized-worker error — the
worker is not back in the not-started state. -/
theorem stop_retains_engine_handle :
    (stop (some ⟨3⟩)).2 = some ⟨3⟩ ∧
    (stop (some ⟨3⟩)).2 ≠ none ∧
    (startWorker workerC3 (stop (some ⟨3⟩)).2).2.2 = 0 ∧
    (enqueue workerC3 dbArrEmpty (stop (some ⟨3⟩)).2 "t" .null
      noEnqueueOptions).2 = .ok none := by
  refine ⟨rfl, ?_, rfl, rfl⟩
  simp [stop]

/-- C3 amended: `stop()` is a no-op when no engine handle exists; when a
handle exists it requests graceful shutdown from the engine but retains the
handle, leaving the worker in the started state. -/
theorem stop_behavior :
    stop (none : Option Runner) = ([], none) ∧
    ∀ r : Runner, stop (some r) = ([.engineStop r.id], some r) :=
  ⟨rfl, fun _ => rfl⟩

def taskC6 : ZodTask :=
  { queueName := some (.fromPayload (fun _ => "")),
    handler := fun _ _ => .ok () }

def workerC6 : Worker :=
  { schema := [], tasks := [("t", taskC6)], recurringTasks := [],
    engineRun := fun _ _ => some ⟨1⟩, prismaCtx := 0 }

/-- C6 counterexample: when the task's queue-name function returns the empty
string, the add-job operation is issued with `queue_name = null`, not with
the literal value `f(payload) = ""` — the falsy normalization overrides the
claim's universal statement. -/
theorem enqueue_empty_function_queue_name_sent_as_null :
    (enqueue workerC6 dbArrEmpty (some ⟨1⟩) "t" .null noEnqueueOptions).1 =
      [DbCall.addJobOp 0
        { identifier := .str "t", payload := .str "null", queue_name := .null,
          run_at := .null, max_attempts := .null, job_key := .null,
          priority := .null, flags := .null, job_key_mode := .null }] ∧
    SqlArg.null ≠ SqlArg.str "" :=
  ⟨rfl, by decide⟩

/-- C6 amended: for a task whose queue-name is a function `f`, `enqueue`
resolves the spec's queue name to `f(payload)` — overriding any
caller-supplied `queueName` option — and issues the add-job operation with
that value bound to `queue_name` (sent as `null` when `f(payload)` is the
empty string, per the falsy normalization). -/
theorem enqueue_queue_name_function_overrides (w : Worker) (db : Db)
    (r : Runner) (identifier : String) (payload : Value)
    (options : EnqueueOptions) (task : ZodTask) (f : Value → String)
    (hTask : lookupStr identifier w.tasks = some task)
    (hQ : task.queueName = some (.fromPayload f)) :
    (applyQueueNameFn task payload (mergeSpec options task)).queueNameStr =
      some (f payload) ∧
    (enqueue w db (some r) identifier payload options).1 =
      [DbCall.addJobOp (options.tx.getD w.prismaCtx)
        (mkAddJobCall identifier payload
          (applyQueueNameFn task payload (mergeSpec options task)))] ∧
    (mkAddJobCall identifier payload
        (applyQueueNameFn task payload (mergeSpec options task))).queue_name =
      (if f payload = "" then .null else .str (f payload)) := by
  refine ⟨?_, ?_, ?_⟩
  · simp [applyQueueNameFn, hQ, MergedSpec.queueNameStr]
  · simp [enqueue, hTask, addJob]
  · simp [mkAddJobCall, addJobArgs, addJobCallOfArgs, sqlStrOrNull,
      applyQueueNameFn, hQ, MergedSpec.queueNameStr]

def taskC6w : ZodTask :=
  { queueName := some (.fromPayload (fun v => coerceString v)),
    handler := fun _ _ => .ok () }

def workerC6w : Worker :=
  { schema := [], tasks := [("t", taskC6w)], recurringTasks := [],
    engineRun := fun _ _ => some ⟨1⟩, prismaCtx := 0 }

def optionsC6w : EnqueueOptions := { queueName := some "static-ignored" }

theorem enqueue_queue_name_function_overrides_witness :
    (applyQueueNameFn taskC6w (.str "dyn")
        (mergeSpec optionsC6w taskC6w)).queueNameStr = some "dyn" ∧
    (enqueue workerC6w dbArrEmpty (some ⟨1⟩) "t" (.str "dyn") optionsC6w).1 =
      [DbCall.addJobOp 0
        (mkAddJobCall "t" (.str "dyn")
          (applyQueueNameFn taskC6w (.str "dyn")
            (mergeSpec optionsC6w taskC6w)))] ∧
    (mkAddJobCall "t" (.str "dyn")
        (applyQueueNameFn taskC6w (.str "dyn")
          (mergeSpec optionsC6w taskC6w))).queue_name =
      (if coerceString (.str "dyn") = "" then .null
       else .str (coerceString (.str "dyn"))) :=
  enqueue_queue_name_function_overrides workerC6w dbArrEmpty ⟨1⟩ "t"
    (.str "dyn") optionsC6w taskC6w (fun v => coerceString v) rfl rfl

/-- C10: any falsy resolved specification field is sent to the add-job
operation as `null`: for every started worker and resolved spec, a resolved
priority of `0`, a max-attempts of `0`, an empty-string queue name and an
empty-string job key are each bound as `null` in the issued operation. -/
theorem addJob_falsy_fields_sent_as_null (w : Worker) (db : Db) (r : Runner)
    (identifier : String) (payload : Value) (options : EnqueueOptions)
    (task : ZodTask)
    (hTask : lookupStr identifier w.tasks = some task) :
    (enqueue w db (some r) identifier payload options).1 =
      [DbCall.addJobOp (options.tx.getD w.prismaCtx)
        (mkAddJobCall identifier payload
          (applyQueueNameFn task payload (mergeSpec options task)))] ∧
    (∀ spec : MergedSpec,
      (spec.priority = some 0 →
        (mkAddJobCall identifier payload spec).priority = .null) ∧
      (spec.maxAttempts = some 0 →
        (mkAddJobCall identifier payload spec).max_attempts = .null) ∧
      (spec.queueNameStr = some "" →
        (mkAddJobCall identifier payload spec).queue_name = .null) ∧
      (spec.jobKey = some "" →
        (mkAddJobCall identifier payload spec).job_key = .null)) := by
  constructor
  · simp [enqueue, hTask, addJob]
  · intro spec
    refine ⟨?_, ?_, ?_, ?_⟩ <;> intro h <;>
      simp [mkAddJobCall, addJobArgs, addJobCallOfArgs, sqlIntOrNull,
        sqlStrOrNull, h]

def taskC10 : ZodTask := { handler := fun _ _ => .ok () }

def workerC10 : Worker :=
  { schema := [], tasks := [("t", taskC10)], recurringTasks := [],
    engineRun := fun _ _ => some ⟨1⟩, prismaCtx := 0 }

def specC10 : MergedSpec :=
  { queueName := some (.fixed ""), maxAttempts := some 0,
    jobKey := some "", priority := some 0 }

theorem addJob_falsy_fields_sent_as_null_witness :
    (enqueue workerC10 dbArrEmpty (some ⟨1⟩) "t" .null noEnqueueOptions).1 =
      [DbCall.addJobOp 0
        (mkAddJobCall "t" .null
          (applyQueueNameFn taskC10 .null
            (mergeSpec noEnqueueOptions taskC10)))] ∧
    (mkAddJobCall "t" .null specC10).priority = .null ∧
    (mkAddJobCall "t" .null specC10).max_attempts = .null ∧
    (mkAddJobCall "t" .null specC10).queue_name = .null ∧
    (mkAddJobCall "t" .null specC10).job_key = .null := by
  obtain ⟨h1, h2⟩ := addJob_falsy_fields_sent_as_null workerC10 dbArrEmpty
    ⟨1⟩ "t" .null noEnqueueOptions taskC10 rfl
  obtain ⟨p1, p2, p3, p4⟩ := h2 specC10
  exact ⟨h1, p1 rfl, p2 rfl, p3 rfl, p4 rfl⟩

/-- C8: every failure of the remove-job path is wrapped and rethrown as a
remove-job error whose message embeds the original cause: an exception
raised by the underlying operation is wrapped directly, and a result whose
shape fails to parse as a list of job records is wrapped through the
internally thrown zod-parse error.  No failure is swallowed. -/
theorem removeJob_wraps_all_failures (db : Db) (ctx : Nat) (jobKey : String) :
    (∀ e, db (.removeJobOp ctx jobKey) = .error e →
      (removeJob db ctx jobKey).2 = .error (.removeJobError
        ("Failed to remove job from queue, " ++ e ++ "\x7d"))) ∧
    (∀ v d, db (.removeJobOp ctx jobKey) = .ok v →
      parseAddJobResults v = .error d →
      (removeJob db ctx jobKey).2 = .error (.removeJobError
        ("Failed to remove job from queue, " ++
          ("Error: Failed to remove job from queue, zod parsing error: " ++ d)
          ++ "\x7d"))) := by
  constructor
  · intro e he
    simp [removeJob, he]
  · intro v d hv hd
    simp [removeJob, hv, hd]

/-- A data store whose remove operation raises an exception. -/
def dbC8Raise : Db := fun _ => .error "Error: connection lost"

/-- A data store whose remove operation returns a non-array result. -/
def dbC8BadShape : Db := fun _ => .ok .null

theorem removeJob_wraps_all_failures_witness :
    (removeJob dbC8Raise 0 "k").2 = .error (.removeJobError
      "Failed to remove job from queue, Error: connection lost\x7d") ∧
    (removeJob dbC8BadShape 0 "k").2 = .error (.removeJobError
      "Failed to remove job from queue, Error: Failed to remove job from queue, zod parsing error: Expected array, received null\x7d") :=
  ⟨(removeJob_wraps_all_failures dbC8Raise 0 "k").1 "Error: connection lost" rfl,
   (removeJob_wraps_all_failures dbC8BadShape 0 "k").2 .null
     "Expected array, received null" rfl rfl⟩

/-! ### Lookup lemmas for the dispatch table -/

theorem lookupStr_objInsert_self {α : Type} (k : String) (v : α) :
    ∀ l : List (String × α), lookupStr k (objInsert l k v) = some v := by
  intro l
  induction l with
  | nil => simp [objInsert, lookupStr]
  | cons p rest ih =>
    by_cases hk : p.1 = k
    · simp [objInsert, hk, lookupStr]
    · simp [objInsert, hk, lookupStr, ih]

theorem lookupStr_objInsert_ne {α : Type} (k k' : String) (v : α)
    (hne : k' ≠ k) :
    ∀ l : List (String × α), lookupStr k (objInsert l k' v) = lookupStr k l := by
  intro l
  induction l with
  | nil => simp [objInsert, lookupStr, hne]
  | cons p rest ih =>
    by_cases h0 : p.1 = k'
    · have h0k : p.1 ≠ k := by rw [h0]; exact hne
      simp [objInsert, h0, lookupStr, hne, h0k]
    · simp only [objInsert, if_neg h0, lookupStr, ih]

theorem keyMem_of_lookupStr_isSome {α : Type} (k : String) :
    ∀ l : List (String × α), (lookupStr k l).isSome = true →
    ∃ v, (k, v) ∈ l := by
  intro l
  induction l with
  | nil => intro h; simp [lookupStr] at h
  | cons p rest ih =>
    intro h
    by_cases hk : p.1 = k
    · exact ⟨p.2, by rw [← hk]; exact List.mem_cons_self p rest⟩
    · simp only [lookupStr, if_neg hk] at h
      obtain ⟨v, hv⟩ := ih h
      exact ⟨v, List.mem_cons_of_mem p hv⟩

theorem lookup_fold_recurring (k : String) :
    ∀ (rec : List (String × ZodRecurringTask))
      (acc : List (String × TaskClosure)),
    (lookupStr k acc = some (.handleRecurringFor k) ∨
      ∃ rt, (k, rt) ∈ rec) →
    lookupStr k (rec.foldl
        (fun acc p => objInsert acc p.1 (.handleRecurringFor p.1)) acc) =
      some (.handleRecurringFor k) := by
  intro rec
  induction rec with
  | nil =>
    intro acc h
    rcases h with h | h
    · exact h
    · obtain ⟨rt, hrt⟩ := h
      simp at hrt
  | cons p rest ih =>
    intro acc h
    simp only [List.foldl_cons]
    apply ih
    by_cases hk : p.1 = k
    · left
      rw [hk, lookupStr_objInsert_self]
    · rcases h with h | h
      · left
        rw [lookupStr_objInsert_ne k p.1 _ hk]
        exact h
      · obtain ⟨rt, hrt⟩ := h
        rcases List.mem_cons.mp hrt with heq | hmem
        · exact absurd (congrArg Prod.fst heq).symm hk
        · exact Or.inr ⟨rt, hmem⟩

/-- C9: when the same identifier is declared in both the task registry and
the recurring-task registry, the dispatch table built at start maps it to
the recurring-task closure — the recurring registration is assigned after
the normal one and overwrites it, so firings of that name take the recurring
path. -/
theorem taskList_collision_recurring_wins
    (tasks : List (String × ZodTask))
    (recurringTasks : List (String × ZodRecurringTask)) (key : String)
    (hTask : (lookupStr key tasks).isSome = true)
    (hRec : (lookupStr key recurringTasks).isSome = true) :
    lookupStr key (createTaskListFromTasks tasks recurringTasks) =
      some (.handleRecurringFor key) := by
  unfold createTaskListFromTasks
  exact lookup_fold_recurring key recurringTasks _
    (Or.inr (keyMem_of_lookupStr_isSome key recurringTasks hRec))

def tasksC9 : List (String × ZodTask) :=
  [("dup", { handler := fun _ _ => .ok () })]

def recurringC9 : List (String × ZodRecurringTask) :=
  [("dup", { pattern := "0 * * * *", handler := fun _ _ => .ok () })]

theorem taskList_collision_recurring_wins_witness :
    lookupStr "dup" (createTaskListFromTasks tasksC9 recurringC9) =
      some (.handleRecurringFor "dup") :=
  taskList_collision_recurring_wins tasksC9 recurringC9 "dup" rfl rfl

/-! ### Recurring-task dispatch claims -/

/-- Every successful cron-envelope parse produces exactly the rebuilt
envelope, whose `_cron` object has the fields `ts` (a date) and
`backfilled` (a boolean). -/
theorem rawCronPayloadSafeParse_ok_shape (raw parsed : Value)
    (h : rawCronPayloadSafeParse raw = .ok parsed) :
    ∃ t b, parsed =
      .obj [("_cron", .obj [("ts", .date t), ("backfilled", .bool b)])] := by
  unfold rawCronPayloadSafeParse at h
  repeat split at h
  all_goals try exact Except.noConfusion h
  cases h
  exact ⟨_, _, rfl⟩

/-- C2 amended: a cron firing whose raw payload parses against the envelope
shape invokes exactly the registered recurring handler for that name, with
the envelope's `_cron` object — whose fields are `ts` (the timestamp) and
`backfilled` — as the payload. -/
theorem handleRecurringTask_invokes_handler_with_cron_object
    (recurringTasks : List (String × ZodRecurringTask)) (key : String)
    (rt : ZodRecurringTask) (raw : Value) (job : GraphileJob)
    (t : Int) (b : Bool)
    (hLook : lookupStr key recurringTasks = some rt)
    (hParse : rawCronPayloadSafeParse raw =
      .ok (.obj [("_cron", .obj [("ts", .date t), ("backfilled", .bool b)])])) :
    invocationsOf (handleRecurringTask recurringTasks key raw job).1 =
      [.invokeRecurring key
        (.obj [("ts", .date t), ("backfilled", .bool b)])] := by
  rcases hh : rt.handler (.obj [("ts", .date t), ("backfilled", .bool b)])
      job with u | e <;>
    simp [handleRecurringTask, hLook, hParse, Value.lookupField, lookupStr,
      invocationsOf, hh]

def rtC2 : ZodRecurringTask :=
  { pattern := "* * * * *", handler := fun _ _ => .ok () }

def recurringC2 : List (String × ZodRecurringTask) := [("r", rtC2)]

def rawC2 : Value :=
  .obj [("_cron", .obj [("ts", .date 1000), ("backfilled", .bool false)])]

theorem handleRecurringTask_invokes_handler_with_cron_object_witness :
    invocationsOf (handleRecurringTask recurringC2 "r" rawC2 sampleJob).1 =
      [.invokeRecurring "r"
        (.obj [("ts", .date 1000), ("backfilled", .bool false)])] :=
  handleRecurringTask_invokes_handler_with_cron_object recurringC2 "r" rtC2
    rawC2 sampleJob 1000 false rfl rfl

/-- C2 counterexample: the payload handed to the recurring handler is the
envelope's `_cron` object, whose timestamp field is named `ts` — it has no
`firedAt` field, so the handler is not invoked with a
`\x7bfiredAt, backfilled\x7d` payload as the claim states. -/
theorem cron_fire_payload_has_no_firedAt_field :
    (handleRecurringTask recurringC2 "r" rawC2 sampleJob).1 =
      [.log .debug "Received recurring task, calling handler",
       .invokeRecurring "r"
         (.obj [("ts", .date 1000), ("backfilled", .bool false)])] ∧
    Value.lookupField
      (.obj [("ts", .date 1000), ("backfilled", .bool false)]) "firedAt" =
      none ∧
    Value.lookupField
      (.obj [("ts", .date 1000), ("backfilled", .bool false)]) "ts" =
      some (.date 1000) :=
  ⟨rfl, rfl, rfl⟩

/-- C7 amended: a cron firing whose raw payload fails the envelope parse
fails with a structured parse error and never invokes the handler; the only
log line emitted is the pre-parse debug line announcing the received firing
(the parse failure itself is not logged). -/
theorem handleRecurringTask_parse_failure_no_invoke
    (recurringTasks : List (String × ZodRecurringTask)) (key : String)
    (rt : ZodRecurringTask) (raw : Value) (job : GraphileJob) (d : String)
    (hLook : lookupStr key recurringTasks = some rt)
    (hParse : rawCronPayloadSafeParse raw = .error d) :
    handleRecurringTask recurringTasks key raw job =
      ([.log .debug "Received recurring task, calling handler"],
       .error (.recurringParse
         ("Failed to parse recurring task payload: " ++ d))) := by
  simp [handleRecurringTask, hLook, hParse]

def recurringC7 : List (String × ZodRecurringTask) :=
  [("r", { pattern := "*/5 * * * *", handler := fun _ _ => .ok () })]

theorem handleRecurringTask_parse_failure_no_invoke_witness :
    handleRecurringTask recurringC7 "r" .null sampleJob =
      ([.log .debug "Received recurring task, calling handler"],
       .error (.recurringParse
         "Failed to parse recurring task payload: Expected object, received null")) :=
  handleRecurringTask_parse_failure_no_invoke recurringC7 "r"
    { pattern := "*/5 * * * *", handler := fun _ _ => .ok () } .null sampleJob
    "Expected object, received null" rfl rfl

/-- C7 counterexample: on a malformed envelope the complete event trace is
the single pre-parse debug line — the parse failure is thrown as a
structured error and the handler is not invoked, but no log of the failure
is emitted, contradicting the claim's logging part. -/
theorem recurring_parse_failure_not_logged :
    handleRecurringTask recurringC7 "r" (.str "nope") sampleJob =
      ([.log .debug "Received recurring task, calling handler"],
       .error (.recurringParse
         "Failed to parse recurring task payload: Expected object, received string")) ∧
    invocationsOf (handleRecurringTask recurringC7 "r" (.str "nope")
      sampleJob).1 = [] :=
  ⟨rfl, rfl⟩

end ZodWorker
